import Mathlib

set_option maxHeartbeats 1000000
set_option linter.unnecessarySeqFocus false

namespace Venom

/-- The `Error` enumeration returned by every fallible operation of the engine
(`venom::Error`; a closed enumeration with `Success`, `Failure` and
`InitializationFailed` as the values used by the excerpted core). -/
inductive Error
  | Success
  | Failure
  | InitializationFailed
deriving DecidableEq

/-- The Vulkan physical-device type enumeration (`VkPhysicalDeviceType`),
restricted to its named values; device selection only compares against
`DISCRETE_GPU`. -/
inductive VkPhysicalDeviceType
  | OTHER
  | INTEGRATED_GPU
  | DISCRETE_GPU
  | VIRTUAL_GPU
  | CPU
deriving DecidableEq

/-- The null handle `VK_NULL_HANDLE`: handles are modelled as `Nat`, with `0` the null handle. -/
def VK_NULL_HANDLE : Nat := 0

/-- One enumerated physical device, as read by `__InitPhysicalDevices`
(vulkan.cc:162-182): its handle, `properties.deviceType`,
`features.geometryShader`, `features.tessellationShader`, and the value of
`GetDeviceLocalVRAMAmount()`. The latter is modelled from the spec: the
implementation of `VulkanPhysicalDevice::GetDeviceLocalVRAMAmount` is not under
src/; the spec describes it as the device-local memory amount of the device, so
it is carried as an abstract per-device quantity. -/
structure VulkanPhysicalDevice where
  handle : Nat
  deviceType : VkPhysicalDeviceType
  geometryShader : Bool
  tessellationShader : Bool
  deviceLocalVRAMAmount : Nat
deriving DecidableEq

/-- The default-constructed selected-device slot: `__physicalDevice` starts with
`physicalDevice == VK_NULL_HANDLE` (checked at vulkan.cc:178). -/
def nullPhysicalDevice : VulkanPhysicalDevice :=
  { handle := VK_NULL_HANDLE
    deviceType := VkPhysicalDeviceType.OTHER
    geometryShader := false
    tessellationShader := false
    deviceLocalVRAMAmount := 0 }

/-- The qualification test of the selection loop (vulkan.cc:175-177): discrete
GPU with geometry- and tessellation-shader support. -/
def qualifiesForSelection (d : VulkanPhysicalDevice) : Bool :=
  d.deviceType == VkPhysicalDeviceType.DISCRETE_GPU && d.geometryShader && d.tessellationShader

/-- One iteration of the selection loop body (vulkan.cc:175-181): a qualifying
device replaces the current selection when nothing is selected yet or when it
has strictly more device-local VRAM. -/
def selectStep (sel d : VulkanPhysicalDevice) : VulkanPhysicalDevice :=
  if qualifiesForSelection d then
    if sel.handle = VK_NULL_HANDLE ∨ sel.deviceLocalVRAMAmount < d.deviceLocalVRAMAmount then d
    else sel
  else sel

/-- The whole selection loop of `__InitPhysicalDevices` (vulkan.cc:162-182),
folded over the enumerated devices starting from the null slot. -/
def selectPhysicalDevice (devices : List VulkanPhysicalDevice) : VulkanPhysicalDevice :=
  devices.foldl selectStep nullPhysicalDevice

/-- Helper: `selectStep` specialised to a qualifying device (helper for the proofs). -/
def selectStepQualified (sel d : VulkanPhysicalDevice) : VulkanPhysicalDevice :=
  if sel.handle = VK_NULL_HANDLE ∨ sel.deviceLocalVRAMAmount < d.deviceLocalVRAMAmount then d
  else sel

/-- Helper: `selectStepQualified` once a non-null device is selected: a pure argmax step
with strict comparison (helper for the proofs). -/
def vramArgmaxStep (sel d : VulkanPhysicalDevice) : VulkanPhysicalDevice :=
  if sel.deviceLocalVRAMAmount < d.deviceLocalVRAMAmount then d else sel

/-- Concrete device: an integrated GPU with geometry+tessellation support and
2048 units of device-local VRAM (the first device of the spec's scenario). -/
def devIntegrated : VulkanPhysicalDevice :=
  { handle := 1
    deviceType := VkPhysicalDeviceType.INTEGRATED_GPU
    geometryShader := true
    tessellationShader := true
    deviceLocalVRAMAmount := 2048 }

/-- Concrete device: a discrete GPU with geometry+tessellation support and 4096
units of device-local VRAM (the second device of the spec's scenario). -/
def devDiscrete : VulkanPhysicalDevice :=
  { handle := 2
    deviceType := VkPhysicalDeviceType.DISCRETE_GPU
    geometryShader := true
    tessellationShader := true
    deviceLocalVRAMAmount := 4096 }

/-- The device-extension list requested by the engine (vulkan.cc:16-18):
exactly VK_KHR_SWAPCHAIN_EXTENSION_NAME, i.e. the string VK_KHR_swapchain. -/
def s_deviceExtensions : List String := ["VK_KHR_swapchain"]

/-- The remainder computed by `__IsDeviceSuitable` (vulkan.cc:310-313): the
std::set of required extension names minus the reported available extensions;
the std::set is modelled as a list and the erase loop as a filter (order and
duplication are irrelevant to emptiness and membership, the two facts used).
These are also exactly the names logged one-by-one at vulkan.cc:316-318. -/
def missingExtensions (required available : List String) : List String :=
  required.filter (fun e => !(available.contains e))

/-- The suitability check `__IsDeviceSuitable` (vulkan.cc:302-328): false when some required
extension is missing from the device's reported extension set, false when the
queried present-mode or surface-format list is empty, true otherwise. -/
def IsDeviceSuitable (required available : List String)
    (presentModes surfaceFormats : List Nat) : Bool :=
  if !(missingExtensions required available).isEmpty then false
  else if presentModes.isEmpty || surfaceFormats.isEmpty then false
  else true

/-- Identifiers of the per-slot synchronization objects owned by the
application (`__imageAvailableSemaphores`, `__renderFinishedSemaphores`,
`__inFlightFences`, each indexed by frame slot). -/
inductive SyncObj
  | imageAvailable (slot : Nat)
  | renderFinished (slot : Nat)
  | inFlightFence (slot : Nat)
deriving DecidableEq

/-- The stage bit `VK_PIPELINE_STAGE_COLOR_ATTACHMENT_OUTPUT_BIT` (0x00000400). -/
def VK_PIPELINE_STAGE_COLOR_ATTACHMENT_OUTPUT_BIT : Nat := 1024

/-- The `VkSubmitInfo` contents filled by `__Loop` (vulkan.cc:90-103): wait
semaphores with their stage masks, the command buffers (identified by slot),
and the signal semaphores. -/
structure SubmitInfo where
  waitSemaphores : List SyncObj
  waitDstStageMask : List Nat
  commandBufferSlots : List Nat
  signalSemaphores : List SyncObj
deriving DecidableEq

/-- The `VkPresentInfoKHR` contents filled by `__Loop` (vulkan.cc:110-120). -/
structure PresentInfo where
  waitSemaphores : List SyncObj
  swapchainCount : Nat
deriving DecidableEq

/-- The calls issued by one iteration of `__Loop`, in program order. -/
inductive Event
  | waitFences (f : SyncObj)
  | resetFences (f : SyncObj)
  | acquireNextImage (signalSem : SyncObj)
  | resetCommandBuffer (slot : Nat)
  | beginCommandBuffer (slot : Nat)
  | recordRenderPass (slot : Nat)
  | endCommandBuffer (slot : Nat)
  | queueSubmit (info : SubmitInfo) (fence : SyncObj)
  | logSubmitFailure
  | queuePresent (info : PresentInfo)
deriving DecidableEq

/-- The outcomes of the fallible external calls made by one iteration of
`__Loop`: `BeginCommandBuffer`, `EndCommandBuffer`, `vkQueueSubmit`
(`submitResult` is whether it returned `VK_SUCCESS`), and the `VkResult` of
`vkQueuePresentKHR`, which the code never reads (vulkan.cc:122). -/
structure FrameInputs where
  beginResult : Error
  endResult : Error
  submitResult : Bool
  presentResult : Nat
deriving DecidableEq

/-- The `VkSubmitInfo` built for slot `cur` (vulkan.cc:90-103): wait on that
slot's image-available semaphore at the color-attachment-output stage, submit
that slot's command buffer, signal that slot's render-finished semaphore. -/
def mkSubmitInfo (cur : Nat) : SubmitInfo :=
  { waitSemaphores := [SyncObj.imageAvailable cur]
    waitDstStageMask := [VK_PIPELINE_STAGE_COLOR_ATTACHMENT_OUTPUT_BIT]
    commandBufferSlots := [cur]
    signalSemaphores := [SyncObj.renderFinished cur] }

/-- The `VkPresentInfoKHR` built for slot `cur` (vulkan.cc:110-120): it waits
on the same `signalSemaphores` array used for submission, i.e. that slot's
render-finished semaphore, and presents one swapchain. -/
def mkPresentInfo (cur : Nat) : PresentInfo :=
  { waitSemaphores := [SyncObj.renderFinished cur]
    swapchainCount := 1 }

/-- One iteration of the frame loop `__Loop` (vulkan.cc:64-124) at slot `cur`
with `m = MAX_FRAMES_IN_FLIGHT` (the constant's definition is not under src/,
so the slot count is a parameter): the emitted call sequence, and either the
error returned early or the next value of `__currentFrame`, advanced at
vulkan.cc:124 after the present call with no inspection of its result. -/
def loopBody (m cur : Nat) (inp : FrameInputs) : List Event × Except Error Nat :=
  if inp.beginResult ≠ Error.Success then
    ([Event.waitFences (SyncObj.inFlightFence cur),
      Event.resetFences (SyncObj.inFlightFence cur),
      Event.acquireNextImage (SyncObj.imageAvailable cur),
      Event.resetCommandBuffer cur,
      Event.beginCommandBuffer cur],
     Except.error inp.beginResult)
  else if inp.endResult ≠ Error.Success then
    ([Event.waitFences (SyncObj.inFlightFence cur),
      Event.resetFences (SyncObj.inFlightFence cur),
      Event.acquireNextImage (SyncObj.imageAvailable cur),
      Event.resetCommandBuffer cur,
      Event.beginCommandBuffer cur,
      Event.recordRenderPass cur,
      Event.endCommandBuffer cur],
     Except.error inp.endResult)
  else if inp.submitResult = false then
    ([Event.waitFences (SyncObj.inFlightFence cur),
      Event.resetFences (SyncObj.inFlightFence cur),
      Event.acquireNextImage (SyncObj.imageAvailable cur),
      Event.resetCommandBuffer cur,
      Event.beginCommandBuffer cur,
      Event.recordRenderPass cur,
      Event.endCommandBuffer cur,
      Event.queueSubmit (mkSubmitInfo cur) (SyncObj.inFlightFence cur),
      Event.logSubmitFailure],
     Except.error Error.Failure)
  else
    ([Event.waitFences (SyncObj.inFlightFence cur),
      Event.resetFences (SyncObj.inFlightFence cur),
      Event.acquireNextImage (SyncObj.imageAvailable cur),
      Event.resetCommandBuffer cur,
      Event.beginCommandBuffer cur,
      Event.recordRenderPass cur,
      Event.endCommandBuffer cur,
      Event.queueSubmit (mkSubmitInfo cur) (SyncObj.inFlightFence cur),
      Event.queuePresent (mkPresentInfo cur)],
     Except.ok ((cur + 1) % m))

/-- The sequence of `__currentFrame` values at the start of each executed
iteration of `__Loop`, driven by per-iteration external outcomes; the list of
inputs ends at the iteration where `ShouldClose` becomes true, and an early
return truncates the sequence. -/
def framesTrace (m cur : Nat) : List FrameInputs → List Nat
  | [] => []
  | inp :: rest =>
    cur :: (match (loopBody m cur inp).2 with
      | Except.error _ => []
      | Except.ok next => framesTrace m next rest)

/-- The loop `__Loop` as a whole: iterate the body until the close signal (end of the
input list, after which the code waits for device idle and returns `Success`,
vulkan.cc:127-128) or an early return. -/
def runLoop (m cur : Nat) : List FrameInputs → Except Error Unit
  | [] => Except.ok ()
  | inp :: rest =>
    match (loopBody m cur inp).2 with
    | Except.error e => Except.error e
    | Except.ok next => runLoop m next rest

/-- The entry point `VulkanApplication::Run` (vulkan.cc:31-60): compose the results of
`InitContext`, `__InitVulkan` and `__Loop`; a failing loop is mapped to
`Error::Failure`. -/
def Run (initContextResult initVulkanResult loopResult : Error) : Error :=
  if initContextResult ≠ Error.Success then Error.InitializationFailed
  else if initVulkanResult ≠ Error.Success then Error.InitializationFailed
  else if loopResult ≠ Error.Success then Error.Failure
  else Error.Success

/-- Recognizer for queue-submission events. -/
def isSubmitEvent : Event → Bool
  | Event.queueSubmit _ _ => true
  | _ => false

/-- Recognizer for present events. -/
def isPresentEvent : Event → Bool
  | Event.queuePresent _ => true
  | _ => false

/-- A frame iteration in which every external call succeeds. -/
def okFrame : FrameInputs :=
  { beginResult := Error.Success
    endResult := Error.Success
    submitResult := true
    presentResult := 0 }

/-- A frame iteration in which `vkQueueSubmit` fails. -/
def failSubmitFrame : FrameInputs :=
  { beginResult := Error.Success
    endResult := Error.Success
    submitResult := false
    presentResult := 0 }

/-- Replace only the present result of a frame iteration's inputs. -/
def setPresentResult (inp : FrameInputs) (r : Nat) : FrameInputs :=
  { inp with presentResult := r }

/-- The flag `VK_FENCE_CREATE_SIGNALED_BIT` (0x00000001). -/
def VK_FENCE_CREATE_SIGNALED_BIT : Nat := 1

/-- A fence's CPU-observable state. -/
structure Fence where
  signaled : Bool
deriving DecidableEq

/-- Modelled from the spec: `VulkanFence::InitFence` (VulkanFence.cc is not
under src/) forwards its flags to `vkCreateFence`; per the Vulkan contract the
created fence starts signaled iff `VK_FENCE_CREATE_SIGNALED_BIT` (bit 0) is
set in the flags. -/
def InitFence (flags : Nat) : Fence := { signaled := flags.testBit 0 }

/-- The fence-creation loop of `__InitPhysicalDevices` (vulkan.cc:289-297):
`MAX_FRAMES_IN_FLIGHT` in-flight fences, each created with
`VK_FENCE_CREATE_SIGNALED_BIT`. -/
def initInFlightFences (m : Nat) : List Fence :=
  List.replicate m (InitFence VK_FENCE_CREATE_SIGNALED_BIT)

/-- Waiting via `vkWaitForFences` returns without any prior queue submission having
signaled the fence iff the fence is already signaled. -/
def fenceWaitReturnsImmediately (f : Fence) : Bool := f.signaled

/-- The steps of `__InitPhysicalDevices` (vulkan.cc:150-299), in program
order, as observable events. -/
inductive InitEvent
  | enumeratePhysicalDevices
  | selectDeviceLoop
  | getQueueFamilies
  | createSurface
  | setPresentQueueFamilies
  | initSwapChainSettings
  | suitabilityCheck
  | createLogicalDevice
  | initSwapChain
  | getGraphicsQueue
  | getPresentQueue
  | initRenderPass
  | initSwapChainFramebuffers
  | initCommandPool
  | createCommandBuffers
  | createSyncObjects
deriving DecidableEq

/-- The outcomes of the external calls made by `__InitPhysicalDevices`: what
the selected device reports as available extensions, the swap-chain settings
the settings step leaves behind (present modes and surface formats), and the
result of each fallible step; the command-buffer and sync-object creation
loops yield one result per created object. -/
structure InitEnv where
  availableExtensions : List String
  presentModes : List Nat
  surfaceFormats : List Nat
  setPresentQueueFamiliesResult : Error
  swapChainSettingsResult : Error
  createDeviceOk : Bool
  initSwapChainResult : Error
  initRenderPassResult : Error
  initFramebuffersResult : Error
  initCommandPoolResult : Error
  commandBufferResults : List Error
  syncObjectResults : List Error
deriving DecidableEq

/-- The early-return pattern of a creation loop (vulkan.cc:281-284, 290-297):
the first non-`Success` result, else `Success`. -/
def firstErr : List Error → Error
  | [] => Error.Success
  | e :: t => if e ≠ Error.Success then e else firstErr t

/-- The initializer `__InitPhysicalDevices` (vulkan.cc:150-299): the selected device, the
sequence of performed steps, and the returned error. Empty enumeration
returns `InitializationFailed` at once (vulkan.cc:155-159); afterwards the
selection loop runs and — with no check that anything was selected — the
function continues through queue-family, surface, present-queue, swap-chain
settings, the suitability check, logical-device creation, swap-chain,
queues, render pass, framebuffers, command pool, command buffers and sync
objects, returning at the first failing step. -/
def initPhysicalDevices (devices : List VulkanPhysicalDevice) (env : InitEnv) :
    VulkanPhysicalDevice × List InitEvent × Error :=
  if devices.isEmpty then
    (nullPhysicalDevice, [InitEvent.enumeratePhysicalDevices], Error.InitializationFailed)
  else if env.setPresentQueueFamiliesResult ≠ Error.Success then
    (selectPhysicalDevice devices,
     [InitEvent.enumeratePhysicalDevices, InitEvent.selectDeviceLoop,
      InitEvent.getQueueFamilies, InitEvent.createSurface,
      InitEvent.setPresentQueueFamilies],
     env.setPresentQueueFamiliesResult)
  else if env.swapChainSettingsResult ≠ Error.Success then
    (selectPhysicalDevice devices,
     [InitEvent.enumeratePhysicalDevices, InitEvent.selectDeviceLoop,
      InitEvent.getQueueFamilies, InitEvent.createSurface,
      InitEvent.setPresentQueueFamilies, InitEvent.initSwapChainSettings],
     env.swapChainSettingsResult)
  else if IsDeviceSuitable s_deviceExtensions env.availableExtensions
      env.presentModes env.surfaceFormats = false then
    (selectPhysicalDevice devices,
     [InitEvent.enumeratePhysicalDevices, InitEvent.selectDeviceLoop,
      InitEvent.getQueueFamilies, InitEvent.createSurface,
      InitEvent.setPresentQueueFamilies, InitEvent.initSwapChainSettings,
      InitEvent.suitabilityCheck],
     Error.InitializationFailed)
  else if env.createDeviceOk = false then
    (selectPhysicalDevice devices,
     [InitEvent.enumeratePhysicalDevices, InitEvent.selectDeviceLoop,
      InitEvent.getQueueFamilies, InitEvent.createSurface,
      InitEvent.setPresentQueueFamilies, InitEvent.initSwapChainSettings,
      InitEvent.suitabilityCheck, InitEvent.createLogicalDevice],
     Error.InitializationFailed)
  else if env.initSwapChainResult ≠ Error.Success then
    (selectPhysicalDevice devices,
     [InitEvent.enumeratePhysicalDevices, InitEvent.selectDeviceLoop,
      InitEvent.getQueueFamilies, InitEvent.createSurface,
      InitEvent.setPresentQueueFamilies, InitEvent.initSwapChainSettings,
      InitEvent.suitabilityCheck, InitEvent.createLogicalDevice,
      InitEvent.initSwapChain],
     env.initSwapChainResult)
  else if env.initRenderPassResult ≠ Error.Success then
    (selectPhysicalDevice devices,
     [InitEvent.enumeratePhysicalDevices, InitEvent.selectDeviceLoop,
      InitEvent.getQueueFamilies, InitEvent.createSurface,
      InitEvent.setPresentQueueFamilies, InitEvent.initSwapChainSettings,
      InitEvent.suitabilityCheck, InitEvent.createLogicalDevice,
      InitEvent.initSwapChain, InitEvent.getGraphicsQueue,
      InitEvent.getPresentQueue, InitEvent.initRenderPass],
     env.initRenderPassResult)
  else if env.initFramebuffersResult ≠ Error.Success then
    (selectPhysicalDevice devices,
     [InitEvent.enumeratePhysicalDevices, InitEvent.selectDeviceLoop,
      InitEvent.getQueueFamilies, InitEvent.createSurface,
      InitEvent.setPresentQueueFamilies, InitEvent.initSwapChainSettings,
      InitEvent.suitabilityCheck, InitEvent.createLogicalDevice,
      InitEvent.initSwapChain, InitEvent.getGraphicsQueue,
      InitEvent.getPresentQueue, InitEvent.initRenderPass,
      InitEvent.initSwapChainFramebuffers],
     env.initFramebuffersResult)
  else if env.initCommandPoolResult ≠ Error.Success then
    (selectPhysicalDevice devices,
     [InitEvent.enumeratePhysicalDevices, InitEvent.selectDeviceLoop,
      InitEvent.getQueueFamilies, InitEvent.createSurface,
      InitEvent.setPresentQueueFamilies, InitEvent.initSwapChainSettings,
      InitEvent.suitabilityCheck, InitEvent.createLogicalDevice,
      InitEvent.initSwapChain, InitEvent.getGraphicsQueue,
      InitEvent.getPresentQueue, InitEvent.initRenderPass,
      InitEvent.initSwapChainFramebuffers, InitEvent.initCommandPool],
     env.initCommandPoolResult)
  else if firstErr env.commandBufferResults ≠ Error.Success then
    (selectPhysicalDevice devices,
     [InitEvent.enumeratePhysicalDevices, InitEvent.selectDeviceLoop,
      InitEvent.getQueueFamilies, InitEvent.createSurface,
      InitEvent.setPresentQueueFamilies, InitEvent.initSwapChainSettings,
      InitEvent.suitabilityCheck, InitEvent.createLogicalDevice,
      InitEvent.initSwapChain, InitEvent.getGraphicsQueue,
      InitEvent.getPresentQueue, InitEvent.initRenderPass,
      InitEvent.initSwapChainFramebuffers, InitEvent.initCommandPool,
      InitEvent.createCommandBuffers],
     firstErr env.commandBufferResults)
  else if firstErr env.syncObjectResults ≠ Error.Success then
    (selectPhysicalDevice devices,
     [InitEvent.enumeratePhysicalDevices, InitEvent.selectDeviceLoop,
      InitEvent.getQueueFamilies, InitEvent.createSurface,
      InitEvent.setPresentQueueFamilies, InitEvent.initSwapChainSettings,
      InitEvent.suitabilityCheck, InitEvent.createLogicalDevice,
      InitEvent.initSwapChain, InitEvent.getGraphicsQueue,
      InitEvent.getPresentQueue, InitEvent.initRenderPass,
      InitEvent.initSwapChainFramebuffers, InitEvent.initCommandPool,
      InitEvent.createCommandBuffers, InitEvent.createSyncObjects],
     firstErr env.syncObjectResults)
  else
    (selectPhysicalDevice devices,
     [InitEvent.enumeratePhysicalDevices, InitEvent.selectDeviceLoop,
      InitEvent.getQueueFamilies, InitEvent.createSurface,
      InitEvent.setPresentQueueFamilies, InitEvent.initSwapChainSettings,
      InitEvent.suitabilityCheck, InitEvent.createLogicalDevice,
      InitEvent.initSwapChain, InitEvent.getGraphicsQueue,
      InitEvent.getPresentQueue, InitEvent.initRenderPass,
      InitEvent.initSwapChainFramebuffers, InitEvent.initCommandPool,
      InitEvent.createCommandBuffers, InitEvent.createSyncObjects],
     Error.Success)

/-- The step sequence performed by `__InitPhysicalDevices`. -/
def initTraceOf (devices : List VulkanPhysicalDevice) (env : InitEnv) : List InitEvent :=
  (initPhysicalDevices devices env).2.1

/-- The full step sequence of a completely successful `__InitPhysicalDevices`
run, in program order (vulkan.cc:150-299). -/
def fullInitTrace : List InitEvent :=
  [InitEvent.enumeratePhysicalDevices, InitEvent.selectDeviceLoop,
   InitEvent.getQueueFamilies, InitEvent.createSurface,
   InitEvent.setPresentQueueFamilies, InitEvent.initSwapChainSettings,
   InitEvent.suitabilityCheck, InitEvent.createLogicalDevice,
   InitEvent.initSwapChain, InitEvent.getGraphicsQueue,
   InitEvent.getPresentQueue, InitEvent.initRenderPass,
   InitEvent.initSwapChainFramebuffers, InitEvent.initCommandPool,
   InitEvent.createCommandBuffers, InitEvent.createSyncObjects]

/-- An environment in which `SetPresentQueueFamilyIndices` fails with a plain
`Failure` (every other step would succeed). -/
def envPresentFail : InitEnv :=
  { availableExtensions := ["VK_KHR_swapchain"]
    presentModes := [0]
    surfaceFormats := [0]
    setPresentQueueFamiliesResult := Error.Failure
    swapChainSettingsResult := Error.Success
    createDeviceOk := true
    initSwapChainResult := Error.Success
    initRenderPassResult := Error.Success
    initFramebuffersResult := Error.Success
    initCommandPoolResult := Error.Success
    commandBufferResults := []
    syncObjectResults := [] }

/-- An environment in which every external call succeeds. -/
def envAllOk : InitEnv :=
  { availableExtensions := ["VK_KHR_swapchain"]
    presentModes := [0]
    surfaceFormats := [0]
    setPresentQueueFamiliesResult := Error.Success
    swapChainSettingsResult := Error.Success
    createDeviceOk := true
    initSwapChainResult := Error.Success
    initRenderPassResult := Error.Success
    initFramebuffersResult := Error.Success
    initCommandPoolResult := Error.Success
    commandBufferResults := []
    syncObjectResults := [] }

/-- The outcomes of the std::filesystem calls made by `validPath`
(Resources.cc:61-76): `canonical` and `relative` each return a path together
with whether they set the error code. -/
structure FsEnv where
  canonicalOf : String → String × Bool
  relativeOf : String → String × Bool

/-- The helper `validPath` (Resources.cc:61-76): canonicalize the path, failing when the
result is empty or the error code is set; then relativize the canonical path,
failing the same way; on success yield the relative path. -/
def validPath (fs : FsEnv) (path : String) : Option String :=
  if (fs.canonicalOf path).1.isEmpty || (fs.canonicalOf path).2 then none
  else if (fs.relativeOf (fs.canonicalOf path).1).1.isEmpty ||
      (fs.relativeOf (fs.canonicalOf path).1).2 then none
  else some (fs.relativeOf (fs.canonicalOf path).1).1

/-- The base resolver `Resources::GetResourcePath` (non-Bazel branch, Resources.cc:78-81):
prepend the base resources path. -/
def GetResourcePath (basePath resourcePath : String) : String :=
  basePath ++ resourcePath

/-- The private resolver `Resources::__GetResourcePath` (Resources.cc:101-107): try the name
itself, then the folder-prefixed name; empty string when both fail. -/
def __GetResourcePath (fs : FsEnv) (resourcePath folder : String) : String :=
  match validPath fs resourcePath with
  | some res => res
  | none =>
    match validPath fs (folder ++ resourcePath) with
    | some res => res
    | none => ""

/-- The texture resolver `Resources::GetTexturesResourcePath` (Resources.cc:85-89). -/
def GetTexturesResourcePath (fs : FsEnv) (basePath name : String) : String :=
  __GetResourcePath fs name (GetResourcePath basePath "textures/")

/-- The shader resolver `Resources::GetShadersResourcePath` (Resources.cc:91-94). -/
def GetShadersResourcePath (fs : FsEnv) (basePath name : String) : String :=
  __GetResourcePath fs name (GetResourcePath basePath "shaders/")

/-- The model resolver `Resources::GetModelsResourcePath` (Resources.cc:96-99). -/
def GetModelsResourcePath (fs : FsEnv) (basePath name : String) : String :=
  __GetResourcePath fs name (GetResourcePath basePath "models/")

/-- The three resource categories of the resolver. -/
inductive ResourceCategory
  | textures
  | shaders
  | models
deriving DecidableEq

/-- The per-category folder name passed to `GetResourcePath`. -/
def categoryFolderOf : ResourceCategory → String
  | ResourceCategory.textures => "textures/"
  | ResourceCategory.shaders => "shaders/"
  | ResourceCategory.models => "models/"

/-- Dispatch to the three per-category resolvers. -/
def GetCategoryResourcePath (fs : FsEnv) (basePath : String)
    (c : ResourceCategory) (name : String) : String :=
  match c with
  | ResourceCategory.textures => GetTexturesResourcePath fs basePath name
  | ResourceCategory.shaders => GetShadersResourcePath fs basePath name
  | ResourceCategory.models => GetModelsResourcePath fs basePath name

/-- A filesystem environment in which canonicalization and relativization are
the identity and never set the error code. -/
def fsId : FsEnv :=
  { canonicalOf := fun s => (s, false)
    relativeOf := fun s => (s, false) }

/-- The outcomes of the external calls made by `Model::Create`
(Model.cc:33-46): the handle of the object returned by
`GraphicsPlugin::CreateModel` and the result of `ImportModel` on the resolved
path. -/
structure ModelCreateEnv where
  newModelHandle : Nat
  importResult : Error
deriving DecidableEq

/-- The outcome of one `Model::Create` call: the cache afterwards, the
returned model (`none` models nullptr), whether `ImportModel` ran, and the
model destroyed by the failure path, if any. -/
structure ModelCreateResult where
  cache : String → Option Nat
  returned : Option Nat
  imported : Bool
  destroyed : Option Nat

/-- The factory `Model::Create` (Model.cc:33-46): resolve the path through
`GetModelsResourcePath`; return the cached model when one is present;
otherwise create a model, import it — destroying it and returning null on
failure, with nothing cached — and cache it under the resolved path on
success. The object cache of `GraphicsPluginObject` (its source is not under
src/) is modelled as a map from path to model handle: `GetCachedObject` is
lookup and `_SetInCache` is pointwise update, per the spec's description of
the cached-object lookup. -/
def ModelCreate (fs : FsEnv) (basePath : String) (cache : String → Option Nat)
    (env : ModelCreateEnv) (path : String) : ModelCreateResult :=
  match cache (GetModelsResourcePath fs basePath path) with
  | some m =>
    { cache := cache, returned := some m, imported := false, destroyed := none }
  | none =>
    if env.importResult = Error.Success then
      { cache := fun p =>
          if p = GetModelsResourcePath fs basePath path then some env.newModelHandle
          else cache p
        returned := some env.newModelHandle
        imported := true
        destroyed := none }
    else
      { cache := cache, returned := none, imported := true,
        destroyed := some env.newModelHandle }

/-- The empty model cache. -/
def emptyCache : String → Option Nat := fun _ => none

/-- A model-creation environment in which the import succeeds and the created
object is handle 7. -/
def envImportOk : ModelCreateEnv :=
  { newModelHandle := 7, importResult := Error.Success }

-- ===================================================================
-- Theorems
-- ===================================================================

/-- The selection loop only updates on qualifying devices, so folding
`selectStep` over the whole list equals folding the unconditional update over
the qualifying sublist. -/
theorem foldl_selectStep_filter (l : List VulkanPhysicalDevice) :
    ∀ sel, l.foldl selectStep sel = (l.filter qualifiesForSelection).foldl selectStepQualified sel := by
  induction l with
  | nil => intro sel; rfl
  | cons a t ih =>
    intro sel
    cases hq : qualifiesForSelection a with
    | false => simp [List.foldl_cons, List.filter_cons, hq, selectStep, ih]
    | true => simp [List.foldl_cons, List.filter_cons, hq, selectStep, selectStepQualified, ih]

/-- Once a non-null device is selected and every candidate has a non-null
handle, the update step is the strict argmax step on device-local VRAM. -/
theorem foldl_selectStepQualified_argmax (l : List VulkanPhysicalDevice) :
    ∀ a, a.handle ≠ VK_NULL_HANDLE → (∀ d ∈ l, d.handle ≠ VK_NULL_HANDLE) →
      l.foldl selectStepQualified a = l.foldl vramArgmaxStep a := by
  induction l with
  | nil => intro a _ _; rfl
  | cons b t ih =>
    intro a ha hl
    have hb : b.handle ≠ VK_NULL_HANDLE := hl b (by simp)
    have hstep : selectStepQualified a b = vramArgmaxStep a b := by
      simp [selectStepQualified, vramArgmaxStep, ha]
    rw [List.foldl_cons, List.foldl_cons, hstep]
    apply ih
    · by_cases hc : a.deviceLocalVRAMAmount < b.deviceLocalVRAMAmount
      · simpa [vramArgmaxStep, hc] using hb
      · simpa [vramArgmaxStep, hc] using ha
    · intro d hd; exact hl d (by simp [hd])

/-- The VRAM of the accumulator never decreases along the argmax fold. -/
theorem foldl_vramArgmaxStep_mono (l : List VulkanPhysicalDevice) :
    ∀ a, a.deviceLocalVRAMAmount ≤ (l.foldl vramArgmaxStep a).deviceLocalVRAMAmount := by
  induction l with
  | nil => intro a; exact le_refl _
  | cons b t ih =>
    intro a
    rw [List.foldl_cons]
    refine le_trans ?_ (ih (vramArgmaxStep a b))
    by_cases hc : a.deviceLocalVRAMAmount < b.deviceLocalVRAMAmount
    · simp only [vramArgmaxStep, if_pos hc]
      exact le_of_lt hc
    · simp only [vramArgmaxStep, if_neg hc]
      exact le_refl _

/-- The strict argmax fold returns the first element attaining the maximum
VRAM: everything strictly before it is strictly smaller, everything after it is
at most it. -/
theorem foldl_vramArgmaxStep_first_max (l : List VulkanPhysicalDevice) :
    ∀ a, ∃ l1 l2,
      a :: l = l1 ++ (l.foldl vramArgmaxStep a) :: l2 ∧
      (∀ d ∈ l1, d.deviceLocalVRAMAmount < (l.foldl vramArgmaxStep a).deviceLocalVRAMAmount) ∧
      (∀ d ∈ l2, d.deviceLocalVRAMAmount ≤ (l.foldl vramArgmaxStep a).deviceLocalVRAMAmount) := by
  induction l with
  | nil => intro a; exact ⟨[], [], rfl, by simp, by simp⟩
  | cons b t ih =>
    intro a
    rw [List.foldl_cons]
    by_cases hc : a.deviceLocalVRAMAmount < b.deviceLocalVRAMAmount
    · have hb : vramArgmaxStep a b = b := by simp [vramArgmaxStep, hc]
      rw [hb]
      obtain ⟨l1, l2, hdec, hlt, hle⟩ := ih b
      refine ⟨a :: l1, l2, ?_, ?_, hle⟩
      · rw [List.cons_append, ← hdec]
      · intro d hd
        rcases List.mem_cons.1 hd with h | h
        · subst h
          exact lt_of_lt_of_le hc (foldl_vramArgmaxStep_mono t b)
        · exact hlt d h
    · have hb : vramArgmaxStep a b = a := by simp [vramArgmaxStep, hc]
      rw [hb]
      obtain ⟨l1, l2, hdec, hlt, hle⟩ := ih a
      cases l1 with
      | nil =>
        simp only [List.nil_append] at hdec
        injection hdec with h1 h2
        refine ⟨[], b :: t, ?_, by simp, ?_⟩
        · simp [← h1]
        · intro d hd
          rcases List.mem_cons.1 hd with h | h
          · subst h
            rw [← h1]
            omega
          · exact hle d (h2 ▸ h)
      | cons c l1t =>
        rw [List.cons_append] at hdec
        injection hdec with h1 h2
        have haR : a.deviceLocalVRAMAmount < (t.foldl vramArgmaxStep a).deviceLocalVRAMAmount := by
          apply hlt
          rw [← h1]
          simp
        refine ⟨a :: b :: l1t, l2, ?_, ?_, hle⟩
        · rw [List.cons_append, List.cons_append, ← h2]
        · intro d hd
          rcases List.mem_cons.1 hd with h | h
          · subst h; exact haR
          · rcases List.mem_cons.1 h with h | h
            · subst h; omega
            · exact hlt d (List.mem_cons_of_mem c h)

/-- C1: for every device list whose devices all carry non-null handles and that
contains at least one qualifying device (discrete GPU with geometry and
tessellation shaders), the selection loop of `__InitPhysicalDevices` picks a
qualifying device from the list, and the qualifying sublist splits around the
selected device so that every earlier qualifying device has strictly less
device-local VRAM (first-seen wins on ties, by the strict `<` comparison) and
every later qualifying device has at most as much. -/
theorem initPhysicalDevices_selects_first_max_qualifying
    (devices : List VulkanPhysicalDevice)
    (hh : ∀ d ∈ devices, d.handle ≠ VK_NULL_HANDLE)
    (hq : ∃ d ∈ devices, qualifiesForSelection d = true) :
    selectPhysicalDevice devices ∈ devices ∧
    qualifiesForSelection (selectPhysicalDevice devices) = true ∧
    ∃ l1 l2,
      devices.filter qualifiesForSelection = l1 ++ selectPhysicalDevice devices :: l2 ∧
      (∀ d ∈ l1, d.deviceLocalVRAMAmount < (selectPhysicalDevice devices).deviceLocalVRAMAmount) ∧
      (∀ d ∈ l2, d.deviceLocalVRAMAmount ≤ (selectPhysicalDevice devices).deviceLocalVRAMAmount) := by
  obtain ⟨d0, hd0, hq0⟩ := hq
  have hfil : d0 ∈ devices.filter qualifiesForSelection := List.mem_filter.2 ⟨hd0, hq0⟩
  cases hq' : devices.filter qualifiesForSelection with
  | nil => rw [hq'] at hfil; simp at hfil
  | cons q rest =>
    have hsel : selectPhysicalDevice devices = rest.foldl vramArgmaxStep q := by
      unfold selectPhysicalDevice
      rw [foldl_selectStep_filter, hq', List.foldl_cons]
      have hq0' : selectStepQualified nullPhysicalDevice q = q := by
        simp [selectStepQualified, nullPhysicalDevice, VK_NULL_HANDLE]
      rw [hq0']
      apply foldl_selectStepQualified_argmax
      · have hmq : q ∈ devices.filter qualifiesForSelection := by rw [hq']; simp
        exact hh q (List.mem_of_mem_filter hmq)
      · intro d hd
        have hmd : d ∈ devices.filter qualifiesForSelection := by rw [hq']; simp [hd]
        exact hh d (List.mem_of_mem_filter hmd)
    obtain ⟨l1, l2, hdec, hlt, hle⟩ := foldl_vramArgmaxStep_first_max rest q
    rw [← hsel] at hdec hlt hle
    have hmemf : selectPhysicalDevice devices ∈ devices.filter qualifiesForSelection := by
      rw [hq', hdec]; simp
    exact ⟨List.mem_of_mem_filter hmemf, (List.mem_filter.1 hmemf).2, l1, l2, hdec, hlt, hle⟩

/-- Witness for C1: on the spec's scenario list (integrated 2048, discrete
4096), the hypotheses hold and the theorem applies; moreover the selected
device is concretely the discrete one. -/
theorem initPhysicalDevices_selection_witness :
    (∀ d ∈ [devIntegrated, devDiscrete], d.handle ≠ VK_NULL_HANDLE) ∧
    (∃ d ∈ [devIntegrated, devDiscrete], qualifiesForSelection d = true) ∧
    selectPhysicalDevice [devIntegrated, devDiscrete] = devDiscrete ∧
    (selectPhysicalDevice [devIntegrated, devDiscrete] ∈ [devIntegrated, devDiscrete] ∧
     qualifiesForSelection (selectPhysicalDevice [devIntegrated, devDiscrete]) = true ∧
     ∃ l1 l2,
       List.filter qualifiesForSelection [devIntegrated, devDiscrete] =
         l1 ++ selectPhysicalDevice [devIntegrated, devDiscrete] :: l2 ∧
       (∀ d ∈ l1, d.deviceLocalVRAMAmount < (selectPhysicalDevice [devIntegrated, devDiscrete]).deviceLocalVRAMAmount) ∧
       (∀ d ∈ l2, d.deviceLocalVRAMAmount ≤ (selectPhysicalDevice [devIntegrated, devDiscrete]).deviceLocalVRAMAmount)) :=
  ⟨by decide, by decide, by decide,
    initPhysicalDevices_selects_first_max_qualifying [devIntegrated, devDiscrete] (by decide) (by decide)⟩

/-- Membership in the missing-extension remainder: exactly the required names
absent from the available set. -/
theorem mem_missingExtensions (required available : List String) (e : String) :
    e ∈ missingExtensions required available ↔ e ∈ required ∧ e ∉ available := by
  simp [missingExtensions, List.mem_filter, List.elem_iff]

/-- C4: `__IsDeviceSuitable` returns false if and only if the required device
extensions are not all contained in the device's reported available-extension
set, or the queried present-mode list is empty, or the queried surface-format
list is empty; and the names it logs when extensions are missing are exactly
the required names absent from the available set, one by one. -/
theorem isDeviceSuitable_false_iff (required available : List String)
    (presentModes surfaceFormats : List Nat) :
    (IsDeviceSuitable required available presentModes surfaceFormats = false ↔
      (¬ ∀ e ∈ required, e ∈ available) ∨ presentModes = [] ∨ surfaceFormats = []) ∧
    (∀ e, e ∈ missingExtensions required available ↔ e ∈ required ∧ e ∉ available) := by
  refine ⟨?_, fun e => mem_missingExtensions required available e⟩
  unfold IsDeviceSuitable
  by_cases hm : (missingExtensions required available).isEmpty
  · have hsub : ∀ e ∈ required, e ∈ available := by
      intro e he
      by_contra hna
      have hmem : e ∈ missingExtensions required available :=
        (mem_missingExtensions required available e).2 ⟨he, hna⟩
      rw [List.isEmpty_iff.1 hm] at hmem
      simp at hmem
    rw [if_neg (by simp [hm])]
    by_cases hp : presentModes.isEmpty
    · rw [if_pos (by simp [hp])]
      exact iff_of_true rfl (Or.inr (Or.inl (List.isEmpty_iff.1 hp)))
    · by_cases hs : surfaceFormats.isEmpty
      · rw [if_pos (by simp [hs])]
        exact iff_of_true rfl (Or.inr (Or.inr (List.isEmpty_iff.1 hs)))
      · rw [if_neg (by simp [hp, hs])]
        refine iff_of_false (by simp) ?_
        rintro (h | h | h)
        · exact h hsub
        · exact hp (List.isEmpty_iff.2 h)
        · exact hs (List.isEmpty_iff.2 h)
  · have hns : ¬ ∀ e ∈ required, e ∈ available := by
      intro hsub
      apply hm
      rw [List.isEmpty_iff, List.eq_nil_iff_forall_not_mem]
      intro e he
      obtain ⟨h1, h2⟩ := (mem_missingExtensions required available e).1 he
      exact h2 (hsub e h1)
    rw [if_pos (by simp [hm])]
    exact iff_of_true rfl (Or.inl hns)

/-- A loop iteration either returns an error early or advances the slot to
exactly `(cur + 1) % m`. -/
theorem loopBody_result (m cur : Nat) (inp : FrameInputs) :
    (loopBody m cur inp).2 = Except.ok ((cur + 1) % m) ∨
    ∃ e, (loopBody m cur inp).2 = Except.error e := by
  unfold loopBody
  split
  · exact Or.inr ⟨_, rfl⟩
  · split
    · exact Or.inr ⟨_, rfl⟩
    · split
      · exact Or.inr ⟨_, rfl⟩
      · exact Or.inl rfl

/-- The n-th executed iteration of the loop runs at slot `(cur + n) % m`. -/
theorem framesTrace_get (m : Nat) (inputs : List FrameInputs) :
    ∀ cur, cur < m → ∀ n, n < (framesTrace m cur inputs).length →
      (framesTrace m cur inputs)[n]? = some ((cur + n) % m) := by
  induction inputs with
  | nil => intro cur hcur n h; simp [framesTrace] at h
  | cons inp rest ih =>
    intro cur hcur n h
    cases n with
    | zero =>
      simp [framesTrace, Nat.mod_eq_of_lt hcur]
    | succ k =>
      rcases loopBody_result m cur inp with hok | ⟨e, he⟩
      · have htr : framesTrace m cur (inp :: rest) =
            cur :: framesTrace m ((cur + 1) % m) rest := by
          simp [framesTrace, hok]
        rw [htr] at h ⊢
        have hk : k < (framesTrace m ((cur + 1) % m) rest).length := by
          simpa using h
        have hrec := ih ((cur + 1) % m) (Nat.mod_lt _ (by omega)) k hk
        rw [List.getElem?_cons_succ, hrec, Nat.mod_add_mod]
        congr 2
        omega
      · have htr : framesTrace m cur (inp :: rest) = [cur] := by
          simp [framesTrace, he]
        rw [htr] at h
        simp at h

/-- C3: starting at slot 0 (set by the constructor, vulkan.cc:22), every
executed iteration of the frame loop runs at slot `n % m`, which always lies
in `[0, m)`; the advance to `(cur + 1) % m` at the end of an iteration is the
only advance, it does not depend on the result of the present call, and with
`MAX_FRAMES_IN_FLIGHT = 2` the produced slot sequence is `0,1,0,1,...`. -/
theorem frameIndex_invariant (m : Nat) (hm : 0 < m) (inputs : List FrameInputs) :
    (∀ n, n < (framesTrace m 0 inputs).length →
        (framesTrace m 0 inputs)[n]? = some (n % m)) ∧
    (∀ x ∈ framesTrace m 0 inputs, x < m) ∧
    (∀ cur inp r, loopBody m cur (setPresentResult inp r) = loopBody m cur inp) ∧
    (∀ cur inp t next, loopBody m cur inp = (t, Except.ok next) → next = (cur + 1) % m) ∧
    (∀ n, n < (framesTrace 2 0 inputs).length →
        (framesTrace 2 0 inputs)[n]? = some (n % 2)) := by
  refine ⟨?_, ?_, ?_, ?_, ?_⟩
  · intro n h
    have hg := framesTrace_get m inputs 0 hm n h
    simpa using hg
  · intro x hx
    obtain ⟨n, hn⟩ := List.mem_iff_getElem?.1 hx
    have hlen : n < (framesTrace m 0 inputs).length := by
      by_contra hge
      rw [List.getElem?_eq_none (by omega)] at hn
      simp at hn
    have hg := framesTrace_get m inputs 0 hm n hlen
    rw [hg] at hn
    have hx' : x = (0 + n) % m := by
      injection hn.symm
    rw [hx']
    exact Nat.mod_lt _ hm
  · intro cur inp r
    cases inp
    simp [loopBody, setPresentResult]
  · intro cur inp t next heq
    rcases loopBody_result m cur inp with hok | ⟨e, he⟩
    · rw [heq] at hok
      have h2 : (Except.ok next : Except Error Nat) = Except.ok ((cur + 1) % m) := hok
      injection h2
    · rw [heq] at he
      simp at he
  · intro n h
    have hg := framesTrace_get 2 inputs 0 (by omega) n h
    simpa using hg

/-- Witness for C3: with two in-flight frames and three all-success
iterations, the third executed iteration runs at slot `2 % 2 = 0`. -/
theorem frameIndex_invariant_witness :
    0 < 2 ∧
    (framesTrace 2 0 [okFrame, okFrame, okFrame])[2]? = some (2 % 2) :=
  ⟨by decide,
    (frameIndex_invariant 2 (by decide) [okFrame, okFrame, okFrame]).1 2 (by decide)⟩

/-- C5: in a successful frame-loop iteration at slot `cur`, exactly one queue
submission occurs, and it waits exactly on that slot's image-available
semaphore at the color-attachment-output stage, submits that slot's command
buffer, signals exactly that slot's render-finished semaphore, and attaches
that slot's in-flight fence; exactly one present occurs, and it waits exactly
on that slot's render-finished semaphore. -/
theorem submit_present_slot_wiring (m cur : Nat) (inp : FrameInputs)
    (hb : inp.beginResult = Error.Success) (he : inp.endResult = Error.Success)
    (hs : inp.submitResult = true) :
    (loopBody m cur inp).1.filter isSubmitEvent =
      [Event.queueSubmit
        { waitSemaphores := [SyncObj.imageAvailable cur]
          waitDstStageMask := [VK_PIPELINE_STAGE_COLOR_ATTACHMENT_OUTPUT_BIT]
          commandBufferSlots := [cur]
          signalSemaphores := [SyncObj.renderFinished cur] }
        (SyncObj.inFlightFence cur)] ∧
    (loopBody m cur inp).1.filter isPresentEvent =
      [Event.queuePresent { waitSemaphores := [SyncObj.renderFinished cur], swapchainCount := 1 }] := by
  constructor
  · simp [loopBody, hb, he, hs, isSubmitEvent, mkSubmitInfo, mkPresentInfo, List.filter]
  · simp [loopBody, hb, he, hs, isPresentEvent, mkSubmitInfo, mkPresentInfo, List.filter]

/-- Witness for C5: the wiring instantiated at `m = 2`, slot 0, with all calls
succeeding. -/
theorem submit_present_slot_wiring_witness :
    okFrame.beginResult = Error.Success ∧ okFrame.endResult = Error.Success ∧
    okFrame.submitResult = true ∧
    ((loopBody 2 0 okFrame).1.filter isSubmitEvent =
      [Event.queueSubmit
        { waitSemaphores := [SyncObj.imageAvailable 0]
          waitDstStageMask := [VK_PIPELINE_STAGE_COLOR_ATTACHMENT_OUTPUT_BIT]
          commandBufferSlots := [0]
          signalSemaphores := [SyncObj.renderFinished 0] }
        (SyncObj.inFlightFence 0)] ∧
     (loopBody 2 0 okFrame).1.filter isPresentEvent =
      [Event.queuePresent { waitSemaphores := [SyncObj.renderFinished 0], swapchainCount := 1 }]) :=
  ⟨rfl, rfl, rfl, submit_present_slot_wiring 2 0 okFrame rfl rfl rfl⟩

/-- C6: a begin-recording error, an end-recording error, or a submission
failure makes the loop iteration return that error immediately (no submission
or present happens after a recording error, no present after a submission
failure, which is logged and returned as `Error.Failure`); the loop as a whole
stops at the failing iteration instead of continuing; and `Run` maps every
non-`Success` loop result to `Error.Failure`. -/
theorem loop_error_propagation (m cur : Nat) (inp : FrameInputs) :
    (inp.beginResult ≠ Error.Success →
      (loopBody m cur inp).2 = Except.error inp.beginResult ∧
      (loopBody m cur inp).1.filter isSubmitEvent = [] ∧
      (loopBody m cur inp).1.filter isPresentEvent = []) ∧
    (inp.beginResult = Error.Success → inp.endResult ≠ Error.Success →
      (loopBody m cur inp).2 = Except.error inp.endResult ∧
      (loopBody m cur inp).1.filter isSubmitEvent = [] ∧
      (loopBody m cur inp).1.filter isPresentEvent = []) ∧
    (inp.beginResult = Error.Success → inp.endResult = Error.Success →
      inp.submitResult = false →
      (loopBody m cur inp).2 = Except.error Error.Failure ∧
      Event.logSubmitFailure ∈ (loopBody m cur inp).1 ∧
      (loopBody m cur inp).1.filter isPresentEvent = []) ∧
    (∀ e rest, (loopBody m cur inp).2 = Except.error e →
      runLoop m cur (inp :: rest) = Except.error e) ∧
    (∀ e, e ≠ Error.Success → Run Error.Success Error.Success e = Error.Failure) := by
  refine ⟨?_, ?_, ?_, ?_, ?_⟩
  · intro h1
    refine ⟨by simp [loopBody, h1], ?_, ?_⟩ <;>
      simp [loopBody, h1, isSubmitEvent, isPresentEvent, List.filter]
  · intro h1 h2
    refine ⟨by simp [loopBody, h1, h2], ?_, ?_⟩ <;>
      simp [loopBody, h1, h2, isSubmitEvent, isPresentEvent, List.filter]
  · intro h1 h2 h3
    refine ⟨by simp [loopBody, h1, h2, h3], ?_, ?_⟩ <;>
      simp [loopBody, h1, h2, h3, isSubmitEvent, isPresentEvent, List.filter]
  · intro e rest hb
    simp [runLoop, hb]
  · intro e hne
    simp [Run, hne]

/-- Witness for C6: at `m = 2`, slot 0, a failing `vkQueueSubmit` yields
`Error.Failure`, the failure is logged, and no present happens. -/
theorem loop_error_propagation_witness :
    failSubmitFrame.beginResult = Error.Success ∧
    failSubmitFrame.endResult = Error.Success ∧
    failSubmitFrame.submitResult = false ∧
    ((loopBody 2 0 failSubmitFrame).2 = Except.error Error.Failure ∧
     Event.logSubmitFailure ∈ (loopBody 2 0 failSubmitFrame).1 ∧
     (loopBody 2 0 failSubmitFrame).1.filter isPresentEvent = []) :=
  ⟨rfl, rfl, rfl, (loop_error_propagation 2 0 failSubmitFrame).2.2.1 rfl rfl rfl⟩

/-- C8: every in-flight fence is created in the signaled state (the creation
loop passes `VK_FENCE_CREATE_SIGNALED_BIT`, vulkan.cc:295), so the first wait
on each slot's fence returns without any prior queue submission having
signaled it; and every loop iteration begins with the wait on the current
slot's in-flight fence. -/
theorem inFlight_fences_created_signaled (m i : Nat) (h : i < m) :
    (initInFlightFences m)[i]? = some (InitFence VK_FENCE_CREATE_SIGNALED_BIT) ∧
    (InitFence VK_FENCE_CREATE_SIGNALED_BIT).signaled = true ∧
    fenceWaitReturnsImmediately (InitFence VK_FENCE_CREATE_SIGNALED_BIT) = true ∧
    (∀ cur inp, (loopBody m cur inp).1.head? =
      some (Event.waitFences (SyncObj.inFlightFence cur))) := by
  refine ⟨?_, by decide, by decide, ?_⟩
  · simp [initInFlightFences, List.getElem?_replicate, h]
  · intro cur inp
    unfold loopBody
    split
    · rfl
    · split
      · rfl
      · split
        · rfl
        · rfl

/-- Witness for C8: with two in-flight frames, slot 0's fence is created
signaled. -/
theorem inFlight_fences_created_signaled_witness :
    0 < 2 ∧
    (initInFlightFences 2)[0]? = some (InitFence VK_FENCE_CREATE_SIGNALED_BIT) :=
  ⟨by decide, (inFlight_fences_created_signaled 2 0 (by decide)).1⟩

/-- C2 (exhibit of the divergence): with one enumerated integrated GPU — a
non-empty device list containing zero qualifying devices —
`__InitPhysicalDevices` does not return `InitializationFailed`: the selection
loop leaves the null device selected, no post-loop check exists, execution
continues into the subsequent steps, and the function returns whatever a later
step yields — here the plain `Failure` of `SetPresentQueueFamilyIndices`. The
empty enumeration, by contrast, does return `InitializationFailed`. -/
theorem initPhysicalDevices_no_qualifying_continues :
    qualifiesForSelection devIntegrated = false ∧
    (initPhysicalDevices [devIntegrated] envPresentFail).1 = nullPhysicalDevice ∧
    (initPhysicalDevices [devIntegrated] envPresentFail).2.2 = Error.Failure ∧
    Error.Failure ≠ Error.InitializationFailed ∧
    (initPhysicalDevices [] envPresentFail).2.2 = Error.InitializationFailed := by
  decide

/-- C7: the swap-chain settings step runs (and has succeeded) strictly before
the suitability check and before logical-device creation; logical-device
creation is attempted only when the settings succeeded and the suitability
check passed; and the full swap chain and its framebuffers are created
strictly after logical-device creation, which must have succeeded. -/
theorem initTrace_spec (devices : List VulkanPhysicalDevice) (env : InitEnv) :
    initTraceOf devices env <+: fullInitTrace ∧
    (InitEvent.suitabilityCheck ∈ initTraceOf devices env →
      env.swapChainSettingsResult = Error.Success ∧
      InitEvent.initSwapChainSettings ∈ initTraceOf devices env) ∧
    (InitEvent.createLogicalDevice ∈ initTraceOf devices env →
      env.swapChainSettingsResult = Error.Success ∧
      IsDeviceSuitable s_deviceExtensions env.availableExtensions
        env.presentModes env.surfaceFormats = true ∧
      InitEvent.initSwapChainSettings ∈ initTraceOf devices env ∧
      InitEvent.suitabilityCheck ∈ initTraceOf devices env) ∧
    (InitEvent.initSwapChain ∈ initTraceOf devices env →
      env.createDeviceOk = true ∧
      InitEvent.createLogicalDevice ∈ initTraceOf devices env) ∧
    (InitEvent.initSwapChainFramebuffers ∈ initTraceOf devices env →
      env.createDeviceOk = true ∧
      InitEvent.createLogicalDevice ∈ initTraceOf devices env) := by
  by_cases h1 : devices.isEmpty = true
  · simp [initTraceOf, initPhysicalDevices, h1] <;> decide
  · by_cases h2 : env.setPresentQueueFamiliesResult = Error.Success
    · by_cases h3 : env.swapChainSettingsResult = Error.Success
      · by_cases h4 : IsDeviceSuitable s_deviceExtensions env.availableExtensions
            env.presentModes env.surfaceFormats = true
        · by_cases h5 : env.createDeviceOk = true
          · by_cases h6 : env.initSwapChainResult = Error.Success
            · by_cases h7 : env.initRenderPassResult = Error.Success
              · by_cases h8 : env.initFramebuffersResult = Error.Success
                · by_cases h9 : env.initCommandPoolResult = Error.Success
                  · by_cases h10 : firstErr env.commandBufferResults = Error.Success
                    · by_cases h11 : firstErr env.syncObjectResults = Error.Success
                      · simp [initTraceOf, initPhysicalDevices,
                          h1, h2, h3, h4, h5, h6, h7, h8, h9, h10, h11] <;> decide
                      · simp [initTraceOf, initPhysicalDevices,
                          h1, h2, h3, h4, h5, h6, h7, h8, h9, h10, h11] <;> decide
                    · simp [initTraceOf, initPhysicalDevices,
                        h1, h2, h3, h4, h5, h6, h7, h8, h9, h10] <;> decide
                  · simp [initTraceOf, initPhysicalDevices,
                      h1, h2, h3, h4, h5, h6, h7, h8, h9] <;> decide
                · simp [initTraceOf, initPhysicalDevices,
                    h1, h2, h3, h4, h5, h6, h7, h8] <;> decide
              · simp [initTraceOf, initPhysicalDevices, h1, h2, h3, h4, h5, h6, h7] <;> decide
            · simp [initTraceOf, initPhysicalDevices, h1, h2, h3, h4, h5, h6] <;> decide
          · simp [initTraceOf, initPhysicalDevices, h1, h2, h3, h4, h5] <;> decide
        · simp [initTraceOf, initPhysicalDevices, h1, h2, h3, h4] <;> decide
      · simp [initTraceOf, initPhysicalDevices, h1, h2, h3] <;> decide
    · simp [initTraceOf, initPhysicalDevices, h1, h2] <;> decide

/-- Any prefix of the full step sequence assigns every contained event the
index it has in the full sequence. -/
theorem prefix_indexOf_eq (t : List InitEvent) (hpre : t <+: fullInitTrace) :
    ∀ x ∈ t, t.indexOf x = fullInitTrace.indexOf x := by
  intro x hx
  obtain ⟨s, hs⟩ := hpre
  rw [← hs]
  exact (List.indexOf_append_of_mem hx).symm

/-- C7: the swap-chain settings step runs (and has succeeded) strictly before
the suitability check and before logical-device creation; logical-device
creation is attempted only when the settings succeeded and the suitability
check passed; and the full swap chain and its framebuffers are created
strictly after logical-device creation, which must have succeeded. -/
theorem init_ordering (devices : List VulkanPhysicalDevice) (env : InitEnv) :
    (InitEvent.suitabilityCheck ∈ initTraceOf devices env →
      env.swapChainSettingsResult = Error.Success ∧
      InitEvent.initSwapChainSettings ∈ initTraceOf devices env ∧
      List.indexOf InitEvent.initSwapChainSettings (initTraceOf devices env) <
        List.indexOf InitEvent.suitabilityCheck (initTraceOf devices env)) ∧
    (InitEvent.createLogicalDevice ∈ initTraceOf devices env →
      env.swapChainSettingsResult = Error.Success ∧
      IsDeviceSuitable s_deviceExtensions env.availableExtensions
        env.presentModes env.surfaceFormats = true ∧
      List.indexOf InitEvent.initSwapChainSettings (initTraceOf devices env) <
        List.indexOf InitEvent.createLogicalDevice (initTraceOf devices env) ∧
      List.indexOf InitEvent.suitabilityCheck (initTraceOf devices env) <
        List.indexOf InitEvent.createLogicalDevice (initTraceOf devices env)) ∧
    (InitEvent.initSwapChain ∈ initTraceOf devices env →
      env.createDeviceOk = true ∧
      InitEvent.createLogicalDevice ∈ initTraceOf devices env ∧
      List.indexOf InitEvent.createLogicalDevice (initTraceOf devices env) <
        List.indexOf InitEvent.initSwapChain (initTraceOf devices env)) ∧
    (InitEvent.initSwapChainFramebuffers ∈ initTraceOf devices env →
      env.createDeviceOk = true ∧
      List.indexOf InitEvent.createLogicalDevice (initTraceOf devices env) <
        List.indexOf InitEvent.initSwapChainFramebuffers (initTraceOf devices env)) := by
  obtain ⟨hpre, hg1, hg2, hg3, hg4⟩ := initTrace_spec devices env
  have hidx := prefix_indexOf_eq (initTraceOf devices env) hpre
  refine ⟨fun hmem => ?_, fun hmem => ?_, fun hmem => ?_, fun hmem => ?_⟩
  · obtain ⟨henv, hset⟩ := hg1 hmem
    refine ⟨henv, hset, ?_⟩
    rw [hidx _ hset, hidx _ hmem]
    decide
  · obtain ⟨henv, hsuit, hset, hcheck⟩ := hg2 hmem
    refine ⟨henv, hsuit, ?_, ?_⟩
    · rw [hidx _ hset, hidx _ hmem]
      decide
    · rw [hidx _ hcheck, hidx _ hmem]
      decide
  · obtain ⟨henv, hcreate⟩ := hg3 hmem
    refine ⟨henv, hcreate, ?_⟩
    rw [hidx _ hcreate, hidx _ hmem]
    decide
  · obtain ⟨henv, hcreate⟩ := hg4 hmem
    refine ⟨henv, ?_⟩
    rw [hidx _ hcreate, hidx _ hmem]
    decide

/-- Witness for C7: with the discrete-GPU list and an all-success environment,
logical-device creation happens and the ordering facts hold. -/
theorem init_ordering_witness :
    InitEvent.createLogicalDevice ∈ initTraceOf [devDiscrete] envAllOk ∧
    (envAllOk.swapChainSettingsResult = Error.Success ∧
     IsDeviceSuitable s_deviceExtensions envAllOk.availableExtensions
       envAllOk.presentModes envAllOk.surfaceFormats = true ∧
     List.indexOf InitEvent.initSwapChainSettings (initTraceOf [devDiscrete] envAllOk) <
       List.indexOf InitEvent.createLogicalDevice (initTraceOf [devDiscrete] envAllOk) ∧
     List.indexOf InitEvent.suitabilityCheck (initTraceOf [devDiscrete] envAllOk) <
       List.indexOf InitEvent.createLogicalDevice (initTraceOf [devDiscrete] envAllOk)) :=
  ⟨by decide, (init_ordering [devDiscrete] envAllOk).2.1 (by decide)⟩

/-- A successful `validPath` never yields the empty string (both stages fail
on empty results). -/
theorem validPath_some_ne_empty (fs : FsEnv) (p r : String)
    (h : validPath fs p = some r) : r ≠ "" := by
  unfold validPath at h
  split_ifs at h with hc hr
  injection h with h2
  subst h2
  intro heq
  rw [heq] at hr
  simp at hr
  exact absurd hr.1 (by decide)

/-- The resolver `__GetResourcePath` characterised: empty string exactly when both lookups
fail; the plain name is tried first, the folder-prefixed name second. -/
theorem __GetResourcePath_spec (fs : FsEnv) (name folder : String) :
    (__GetResourcePath fs name folder = "" ↔
      validPath fs name = none ∧ validPath fs (folder ++ name) = none) ∧
    (∀ r, validPath fs name = some r → __GetResourcePath fs name folder = r) ∧
    (∀ r, validPath fs name = none → validPath fs (folder ++ name) = some r →
      __GetResourcePath fs name folder = r) := by
  unfold __GetResourcePath
  cases h1 : validPath fs name with
  | some r0 =>
    refine ⟨iff_of_false (validPath_some_ne_empty fs name r0 h1) (by simp), ?_, ?_⟩
    · intro r hr
      injection hr
    · intro r hr
      exact absurd hr (by simp)
  | none =>
    cases h2 : validPath fs (folder ++ name) with
    | some r0 =>
      refine ⟨iff_of_false (validPath_some_ne_empty fs (folder ++ name) r0 h2) (by simp), ?_, ?_⟩
      · intro r hr
        exact absurd hr (by simp)
      · intro r _ hr
        injection hr
    | none =>
      refine ⟨iff_of_true rfl ⟨rfl, rfl⟩, ?_, ?_⟩
      · intro r hr
        exact absurd hr (by simp)
      · intro r _ hr
        exact absurd hr (by simp)

/-- C9: for every resource name and category, the resolver returns the empty
string iff neither the name itself nor the category-folder-prefixed name
passes `validPath` (canonicalization then relativization); otherwise it
returns the resolved relative path, trying the name itself first and the
folder-prefixed name second; and a resolved path is never the empty string. -/
theorem resourcePath_empty_iff (fs : FsEnv) (basePath : String)
    (c : ResourceCategory) (name : String) :
    (GetCategoryResourcePath fs basePath c name = "" ↔
      validPath fs name = none ∧
      validPath fs (GetResourcePath basePath (categoryFolderOf c) ++ name) = none) ∧
    (∀ r, validPath fs name = some r →
      GetCategoryResourcePath fs basePath c name = r) ∧
    (∀ r, validPath fs name = none →
      validPath fs (GetResourcePath basePath (categoryFolderOf c) ++ name) = some r →
      GetCategoryResourcePath fs basePath c name = r) ∧
    (∀ p r, validPath fs p = some r → r ≠ "") := by
  have hcat : GetCategoryResourcePath fs basePath c name =
      __GetResourcePath fs name (GetResourcePath basePath (categoryFolderOf c)) := by
    cases c <;> rfl
  obtain ⟨hiff, hfirst, hsecond⟩ :=
    __GetResourcePath_spec fs name (GetResourcePath basePath (categoryFolderOf c))
  rw [hcat]
  exact ⟨hiff, hfirst, hsecond, fun p r h => validPath_some_ne_empty fs p r h⟩

/-- Witness for C9: with an identity filesystem, the name itself resolves and
the textures resolver returns it. -/
theorem resourcePath_empty_iff_witness :
    validPath fsId "tex.png" = some "tex.png" ∧
    GetCategoryResourcePath fsId "resources/" ResourceCategory.textures "tex.png" = "tex.png" :=
  ⟨by decide,
    (resourcePath_empty_iff fsId "resources/" ResourceCategory.textures "tex.png").2.1
      "tex.png" (by decide)⟩

/-- C10: `Model::Create` is idempotent per resolved path. A cached model is
returned as-is without re-import and with the cache unchanged; on a first
successful create the new model is returned and cached under the resolved
path, so a second create with the same path returns the same model without
importing and leaves the cache unchanged; on import failure the created model
is destroyed, null is returned, and the cache is unchanged. -/
theorem modelCreate_cache_idempotent (fs : FsEnv) (basePath : String)
    (cache : String → Option Nat) (env : ModelCreateEnv) (path : String) :
    (∀ mId, cache (GetModelsResourcePath fs basePath path) = some mId →
      ModelCreate fs basePath cache env path =
        { cache := cache, returned := some mId, imported := false, destroyed := none }) ∧
    (cache (GetModelsResourcePath fs basePath path) = none →
      env.importResult = Error.Success →
      (ModelCreate fs basePath cache env path).returned = some env.newModelHandle ∧
      (ModelCreate fs basePath cache env path).imported = true ∧
      (ModelCreate fs basePath cache env path).cache (GetModelsResourcePath fs basePath path) =
        some env.newModelHandle ∧
      (∀ env2, ModelCreate fs basePath (ModelCreate fs basePath cache env path).cache env2 path =
        { cache := (ModelCreate fs basePath cache env path).cache
          returned := some env.newModelHandle
          imported := false
          destroyed := none })) ∧
    (cache (GetModelsResourcePath fs basePath path) = none →
      env.importResult ≠ Error.Success →
      ModelCreate fs basePath cache env path =
        { cache := cache, returned := none, imported := true,
          destroyed := some env.newModelHandle }) := by
  refine ⟨?_, ?_, ?_⟩
  · intro mId hc
    simp [ModelCreate, hc]
  · intro hc himp
    have hres : ModelCreate fs basePath cache env path =
        { cache := fun p =>
            if p = GetModelsResourcePath fs basePath path then some env.newModelHandle
            else cache p
          returned := some env.newModelHandle
          imported := true
          destroyed := none } := by
      simp [ModelCreate, hc, himp]
    refine ⟨by rw [hres], by rw [hres], by rw [hres]; simp, ?_⟩
    intro env2
    rw [hres]
    simp [ModelCreate]
  · intro hc himp
    simp [ModelCreate, hc, himp]

/-- Witness for C10: with the empty cache, an identity filesystem, and a
successful import, creating a model returns the newly created handle. -/
theorem modelCreate_cache_idempotent_witness :
    emptyCache (GetModelsResourcePath fsId "resources/" "cube.obj") = none ∧
    envImportOk.importResult = Error.Success ∧
    (ModelCreate fsId "resources/" emptyCache envImportOk "cube.obj").returned =
      some envImportOk.newModelHandle :=
  ⟨rfl, rfl,
    ((modelCreate_cache_idempotent fsId "resources/" emptyCache envImportOk
      "cube.obj").2.1 rfl rfl).1⟩

end Venom
